import Mathlib

/-
  Verification of the Playwright end-to-end test framework
  (page objects, wait helpers, environment configuration loader).

  The TypeScript sources are shallowly embedded as pure Lean functions:
  - strings are Lean strings (sequences of characters);
  - browser side effects (fill, click, navigate) are reified as action values
    returned by the embedded functions, so "no browser interaction occurs"
    corresponds to the function returning an error without any action list;
  - thrown JavaScript errors are the error branch of an Except value;
  - the JavaScript regular expressions of the sources are translated into
    decidable character-list predicates, documented at each definition.
-/

namespace PlaywrightSpec

/-! ### JavaScript character and string primitives -/

/-- The ECMAScript WhiteSpace / LineTerminator set as used by
String.prototype.trim and by the regex class backslash-s: space, tab,
line feed, carriage return, vertical tab, form feed, no-break space,
line separator, paragraph separator, BOM. -/
def jsWhitespace (c : Char) : Bool :=
  c == ' ' || c == '\t' || c == '\n' || c == '\r' || c == '\x0b' || c == '\x0c' ||
  c == '\u00A0' || c == '\u2028' || c == '\u2029' || c == '\uFEFF'

/-- ASCII letter (the a-zA-Z ranges of the source regexes). -/
def isAsciiAlpha (c : Char) : Bool :=
  ('a' ≤ c && c ≤ 'z') || ('A' ≤ c && c ≤ 'Z')

/-- ASCII digit (the 0-9 range of the source regexes). -/
def isAsciiDigit (c : Char) : Bool :=
  '0' ≤ c && c ≤ '9'

/-- Lower-case an ASCII upper-case letter; the case-insensitive regex flag
of the sources is modelled by lower-casing the subject string first. -/
def asciiLower (c : Char) : Char :=
  if 'A' ≤ c && c ≤ 'Z' then Char.ofNat (c.toNat + 32) else c

/-- The character data of a string, ASCII-lower-cased. -/
def lowerData (s : String) : List Char :=
  s.data.map asciiLower

/-- JS String.prototype.trim yields the empty string, i.e. every character
of the string is whitespace (true on the empty string as well). -/
def trimEmpty (s : String) : Bool :=
  s.data.all jsWhitespace

/-! ### BasePage.goto (src/pages/base.page.ts) -/

/-- Character class of the goto path regex
[a-zA-Z0-9/._?-]: alphanumerics, slash, dot, underscore, question mark,
dash. -/
def isPathChar (c : Char) : Bool :=
  isAsciiAlpha c || isAsciiDigit c || c == '/' || c == '.' || c == '_' ||
  c == '?' || c == '-'

/-- The goto path regex, anchored at both ends, with an optional leading
slash followed by any number of path characters. -/
def pathFormatOk (s : String) : Bool :=
  match s.data with
  | '/' :: rest => rest.all isPathChar
  | cs => cs.all isPathChar

/-- The absolute-URL regex of goto: case-insensitive match of the prefix
http:// or https:// . -/
def isAbsHttpUrl (s : String) : Bool :=
  "http://".data.isPrefixOf (lowerData s) || "https://".data.isPrefixOf (lowerData s)

/-- Outcome of BasePage.goto: either a thrown validation error (no browser
call is made) or a navigation issued to the given path. -/
inductive GotoResult where
  | validationError (msg : String) : GotoResult
  | navigate (path : String) : GotoResult
deriving DecidableEq

/-- BasePage.goto from src/pages/base.page.ts: reject the empty path, then
absolute http(s) URLs, then paths with characters outside the allow-list;
only then call page.goto(path). -/
def goto (path : String) : GotoResult :=
  if path = "" then
    .validationError "Invalid path: path must be a non-empty string"
  else if isAbsHttpUrl path then
    .validationError "Security violation: Absolute URLs not allowed. Use relative paths only."
  else if pathFormatOk path = false then
    .validationError "Invalid path format detected"
  else
    .navigate path

/-! ### Theorems for claims C4 and C10 -/

/-- C4: goto(path) raises a validation error if path is empty, is an
absolute http(s) URL, or contains characters outside the allow-listed set
(alphanumerics, slash, dot, underscore, dash, question mark); only
otherwise does it issue a browser navigation to that path. -/
theorem goto_validates (path : String) :
    (goto path = .navigate path ↔
      path ≠ "" ∧ isAbsHttpUrl path = false ∧ pathFormatOk path = true)
    ∧ (path = "" ∨ isAbsHttpUrl path = true ∨ pathFormatOk path = false →
      ∃ msg, goto path = .validationError msg) := by
  constructor
  · unfold goto
    split
    · simp_all
    · split
      · simp_all
      · split
        · simp_all
        · simp_all
  · intro h
    unfold goto
    split
    · exact ⟨_, rfl⟩
    · split
      · exact ⟨_, rfl⟩
      · split
        · exact ⟨_, rfl⟩
        · rcases h with h | h | h <;> simp_all

/-- Witness for C4: a concrete absolute URL is rejected with a validation
error. -/
theorem goto_validates_witness :
    ∃ msg, goto "http://evil.example" = GotoResult.validationError msg :=
  (goto_validates "http://evil.example").2 (Or.inr (Or.inl (by decide)))

/-- C10: the protocol-relative path //evil.com passes the goto validation
(it is non-empty, does not match the absolute-URL pattern, and all its
characters are allow-listed), so a navigation is issued to it. -/
theorem goto_accepts_protocol_relative :
    goto "//evil.com" = GotoResult.navigate "//evil.com"
    ∧ ("//evil.com" : String) ≠ ""
    ∧ isAbsHttpUrl "//evil.com" = false
    ∧ pathFormatOk "//evil.com" = true := by
  refine ⟨by decide, by decide, by decide, by decide⟩

/-- Decidable equality of Except values, used to evaluate the embedded
fallible operations on concrete inputs. -/
instance exceptDecidableEq {ε α : Type} [DecidableEq ε] [DecidableEq α] :
    DecidableEq (Except ε α) := fun a b =>
  match a, b with
  | .ok x, .ok y =>
    if h : x = y then isTrue (by rw [h]) else
      isFalse (fun hh => h (Except.ok.inj hh))
  | .error x, .error y =>
    if h : x = y then isTrue (by rw [h]) else
      isFalse (fun hh => h (Except.error.inj hh))
  | .ok _, .error _ => isFalse (fun hh => Except.noConfusion hh)
  | .error _, .ok _ => isFalse (fun hh => Except.noConfusion hh)

/-! ### Page actions -/

/-- A reified browser interaction: filling a form field located by a
selector or data-test id, or clicking an element. -/
inductive Action where
  | fill (target : String) (value : String) : Action
  | click (target : String) : Action
deriving DecidableEq

/-! ### CheckoutPage.fillCustomerInfo (validating variant) -/

/-- The zip code regex of fillCustomerInfo, anchored at both ends:
one or more characters from [a-zA-Z0-9 backslash-s -]. -/
def zipFormatOk (z : String) : Bool :=
  !z.data.isEmpty &&
    z.data.all (fun c => isAsciiAlpha c || isAsciiDigit c || jsWhitespace c || c == '-')

/-- CheckoutPage.fillCustomerInfo, validating variant: reject any argument
that is empty or whitespace-only, then enforce the length caps 100/100/20,
then the zip format regex; only then fill the three form fields (by
data-test id) in order. -/
def fillCustomerInfo (firstName lastName zipCode : String) : Except String (List Action) :=
  if firstName = "" || trimEmpty firstName then
    .error "First name is required and cannot be empty"
  else if lastName = "" || trimEmpty lastName then
    .error "Last name is required and cannot be empty"
  else if zipCode = "" || trimEmpty zipCode then
    .error "Zip code is required and cannot be empty"
  else if 100 < firstName.length then
    .error "First name exceeds maximum length of 100 characters"
  else if 100 < lastName.length then
    .error "Last name exceeds maximum length of 100 characters"
  else if 20 < zipCode.length then
    .error "Zip code exceeds maximum length of 20 characters"
  else if zipFormatOk zipCode = false then
    .error "Invalid zip code format"
  else
    .ok [.fill "firstName" firstName, .fill "lastName" lastName, .fill "postalCode" zipCode]

/-- CheckoutPage.fillCustomerInfo, non-validating variant: fills the three
fields unconditionally. -/
def fillCustomerInfoNoValidation (firstName lastName zipCode : String) :
    Except String (List Action) :=
  .ok [.fill "firstName" firstName, .fill "lastName" lastName, .fill "postalCode" zipCode]

/-! ### LoginPage.login, both source variants -/

/-- LoginPage.login, validating variant: reject an empty username or
password, then usernames longer than 255 characters and passwords longer
than 2048 characters; only then fill the two fields and click the login
button. -/
def login (username password : String) : Except String (List Action) :=
  if username = "" then
    .error "Username must be a non-empty string"
  else if password = "" then
    .error "Password must be a non-empty string"
  else if 255 < username.length then
    .error "Username exceeds maximum length of 255 characters"
  else if 2048 < password.length then
    .error "Password exceeds maximum length of 2048 characters"
  else
    .ok [.fill "#user-name" username, .fill "#password" password, .click "#login-button"]

/-- LoginPage.login, non-validating variant: fill both fields and click
the login button unconditionally. -/
def loginNoValidation (username password : String) : Except String (List Action) :=
  .ok [.fill "#user-name" username, .fill "#password" password, .click "#login-button"]

/-! ### Theorems for claims C3, C5 and C9 -/

/-- C3, counterexample: with a whitespace-only first name, none of the
conditions listed by the claim holds (all three arguments are non-empty,
both names are at most 100 characters, the zip is at most 20 characters
and matches the zip pattern), yet fillCustomerInfo raises a validation
error instead of filling the fields. -/
theorem fillCustomerInfo_whitespace_cx :
    (" " : String) ≠ "" ∧ ("Doe" : String) ≠ "" ∧ ("12345" : String) ≠ ""
    ∧ (" " : String).length ≤ 100 ∧ ("Doe" : String).length ≤ 100
    ∧ ("12345" : String).length ≤ 20 ∧ zipFormatOk "12345" = true
    ∧ fillCustomerInfo " " "Doe" "12345" =
        .error "First name is required and cannot be empty" := by
  decide

/-- C3, amended: fillCustomerInfo fills the three fields exactly when none
of the arguments is empty or whitespace-only, the names are at most 100
characters, the zip is at most 20 characters, and the zip matches the
alphanumeric-plus-separators pattern; in every other case it raises a
validation error and no field is filled. -/
theorem fillCustomerInfo_validates (firstName lastName zipCode : String) :
    (fillCustomerInfo firstName lastName zipCode =
        .ok [.fill "firstName" firstName, .fill "lastName" lastName,
             .fill "postalCode" zipCode] ↔
      trimEmpty firstName = false ∧ trimEmpty lastName = false ∧
      trimEmpty zipCode = false ∧ firstName.length ≤ 100 ∧ lastName.length ≤ 100 ∧
      zipCode.length ≤ 20 ∧ zipFormatOk zipCode = true)
    ∧ (∀ acts, fillCustomerInfo firstName lastName zipCode = .ok acts →
        acts = [.fill "firstName" firstName, .fill "lastName" lastName,
                .fill "postalCode" zipCode])
    ∧ ((¬ (trimEmpty firstName = false ∧ trimEmpty lastName = false ∧
          trimEmpty zipCode = false ∧ firstName.length ≤ 100 ∧ lastName.length ≤ 100 ∧
          zipCode.length ≤ 20 ∧ zipFormatOk zipCode = true)) →
        ∃ msg, fillCustomerInfo firstName lastName zipCode = .error msg) := by
  have hfn : (firstName = "" || trimEmpty firstName) = trimEmpty firstName := by
    cases h : decide (firstName = "") with
    | false => simp_all
    | true =>
      have : firstName = "" := of_decide_eq_true h
      subst this; simp [trimEmpty]
  have hln : (lastName = "" || trimEmpty lastName) = trimEmpty lastName := by
    cases h : decide (lastName = "") with
    | false => simp_all
    | true =>
      have : lastName = "" := of_decide_eq_true h
      subst this; simp [trimEmpty]
  have hzc : (zipCode = "" || trimEmpty zipCode) = trimEmpty zipCode := by
    cases h : decide (zipCode = "") with
    | false => simp_all
    | true =>
      have : zipCode = "" := of_decide_eq_true h
      subst this; simp [trimEmpty]
  refine ⟨?_, ?_, ?_⟩
  · unfold fillCustomerInfo
    rw [hfn, hln, hzc]
    split
    · simp_all
    · split
      · simp_all
      · split
        · simp_all
        · split
          · simp_all
          · split
            · simp_all
            · split
              · simp_all
              · split
                · simp_all
                · simp_all
  · intro acts h
    unfold fillCustomerInfo at h
    repeat' split at h
    all_goals simp_all
  · intro h
    unfold fillCustomerInfo
    rw [hfn, hln, hzc]
    split
    · exact ⟨_, rfl⟩
    · split
      · exact ⟨_, rfl⟩
      · split
        · exact ⟨_, rfl⟩
        · split
          · exact ⟨_, rfl⟩
          · split
            · exact ⟨_, rfl⟩
            · split
              · exact ⟨_, rfl⟩
              · split
                · exact ⟨_, rfl⟩
                · exfalso; apply h; simp_all

/-- Witness for C3: valid customer data is filled, and an overlong zip is
rejected. -/
theorem fillCustomerInfo_validates_witness :
    (∃ msg, fillCustomerInfo "John" "Doe" "123456789012345678901" = .error msg)
    ∧ fillCustomerInfo "John" "Doe" "12345" =
        .ok [.fill "firstName" "John", .fill "lastName" "Doe", .fill "postalCode" "12345"] :=
  ⟨(fillCustomerInfo_validates "John" "Doe" "123456789012345678901").2.2 (by decide),
   (fillCustomerInfo_validates "John" "Doe" "12345").1.mpr (by decide)⟩

/-- C5: login raises a validation error exactly when the username is empty,
the password is empty, the username exceeds 255 characters or the password
exceeds 2048 characters; otherwise it fills the two fields and clicks the
login button. -/
theorem login_validates (username password : String) :
    (login username password =
        .ok [.fill "#user-name" username, .fill "#password" password,
             .click "#login-button"] ↔
      username ≠ "" ∧ password ≠ "" ∧ username.length ≤ 255 ∧ password.length ≤ 2048)
    ∧ ((username = "" ∨ password = "" ∨ 255 < username.length ∨ 2048 < password.length) →
        ∃ msg, login username password = .error msg) := by
  constructor
  · unfold login
    split
    · simp_all
    · split
      · simp_all
      · split
        · simp_all
        · split
          · simp_all
          · simp_all
  · intro h
    unfold login
    split
    · exact ⟨_, rfl⟩
    · split
      · exact ⟨_, rfl⟩
      · split
        · exact ⟨_, rfl⟩
        · split
          · exact ⟨_, rfl⟩
          · rcases h with h | h | h | h <;> simp_all

/-- Witness for C5: empty username is rejected; a normal pair is filled
and submitted. -/
theorem login_validates_witness :
    (∃ msg, login "" "secret" = .error msg)
    ∧ login "standard_user" "secret_sauce" =
        .ok [.fill "#user-name" "standard_user", .fill "#password" "secret_sauce",
             .click "#login-button"] :=
  ⟨(login_validates "" "secret").2 (Or.inl rfl),
   (login_validates "standard_user" "secret_sauce").1.mpr (by decide)⟩

set_option maxRecDepth 4000 in
/-- C9: the two login variants are not extensionally equal: on a 256
character username the validating variant raises a validation error while
the non-validating variant performs the fill-and-submit sequence. -/
theorem login_variants_diverge :
    login (String.mk (List.replicate 256 'a')) "pw" =
      .error "Username exceeds maximum length of 255 characters"
    ∧ loginNoValidation (String.mk (List.replicate 256 'a')) "pw" =
      .ok [.fill "#user-name" (String.mk (List.replicate 256 'a')),
           .fill "#password" "pw", .click "#login-button"]
    ∧ login (String.mk (List.replicate 256 'a')) "pw" ≠
        loginNoValidation (String.mk (List.replicate 256 'a')) "pw" := by
  refine ⟨by decide, rfl, by decide⟩

/-! ### WaitHelpers (src/utils/wait-helpers.ts)

The polling loops are embedded with an abstract observation trace: a probe
is a function from the polling-iteration index to the value it produces at
that iteration (a boolean, or a thrown error as the error branch).  Probes
are assumed to take no model time, so the while-loop guard
Date.now() - startTime < timeout admits exactly ceil(timeout/interval)
iterations, at elapsed times 0, interval, 2*interval, ... -/

/-- Outcome of a polling wait: normal return, a thrown timeout error, or a
probe's own error escaping the loop. -/
inductive WaitOutcome (E : Type) where
  | success : WaitOutcome E
  | timeout : WaitOutcome E
  | probeError (e : E) : WaitOutcome E
deriving DecidableEq

/-- Promise.all over the list of probe computations of one iteration: if
any probe rejects, the aggregate rejects with the first rejection (in
array order); otherwise it resolves to the list of boolean results. -/
def promiseAll {E : Type} : List (Except E Bool) → Except E (List Bool)
  | [] => .ok []
  | .error e :: _ => .error e
  | .ok b :: rest =>
    match promiseAll rest with
    | .error e => .error e
    | .ok bs => .ok (b :: bs)

/-- Number of iterations of a loop that checks elapsed < timeout at the
top and sleeps for interval at the bottom, when the body takes no model
time: ceil(timeout/interval) for a positive interval. -/
def numPolls (timeout interval : Nat) : Nat :=
  (timeout + interval - 1) / interval

/-- The polling loop of WaitHelpers.waitForAll, at iteration i with the
given number of remaining iterations: evaluate every condition via
Promise.all, succeed when every result is true, otherwise sleep and
re-poll; propagate a rejection; throw a timeout error when the deadline
check fails. -/
def waitForAllGo {E : Type} (conditions : List (Nat → Except E Bool)) :
    Nat → Nat → WaitOutcome E
  | _, 0 => .timeout
  | i, fuel + 1 =>
    match promiseAll (conditions.map (fun c => c i)) with
    | .error e => .probeError e
    | .ok results =>
      if results.all (fun r => r == true) then .success
      else waitForAllGo conditions (i + 1) fuel

/-- WaitHelpers.waitForAll (defaults: timeout 10000, interval 500). -/
def waitForAll {E : Type} (conditions : List (Nat → Except E Bool))
    (timeout interval : Nat) : WaitOutcome E :=
  waitForAllGo conditions 0 (numPolls timeout interval)

/-- The polling loop of WaitHelpers.waitForAny: as waitForAllGo but
succeeding when some result is true. -/
def waitForAnyGo {E : Type} (conditions : List (Nat → Except E Bool)) :
    Nat → Nat → WaitOutcome E
  | _, 0 => .timeout
  | i, fuel + 1 =>
    match promiseAll (conditions.map (fun c => c i)) with
    | .error e => .probeError e
    | .ok results =>
      if results.any (fun r => r == true) then .success
      else waitForAnyGo conditions (i + 1) fuel

/-- WaitHelpers.waitForAny (defaults: timeout 10000, interval 500). -/
def waitForAny {E : Type} (conditions : List (Nat → Except E Bool))
    (timeout interval : Nat) : WaitOutcome E :=
  waitForAnyGo conditions 0 (numPolls timeout interval)

/-! ### WaitHelpers.waitForElementCount -/

/-- Outcome of waitForElementCount: success (recording, as ghost
instrumentation, the index of the poll at which the loop returned) or the
thrown timeout error, which reports the expected count and the count
observed by the extra locator.count() call made after the loop. -/
inductive CountOutcome where
  | successAt (poll : Nat) : CountOutcome
  | timeoutErr (expected : Nat) (actual : Nat) : CountOutcome
deriving DecidableEq

/-- The polling loop of waitForElementCount over the observation trace
cnt (the element count the locator reports at each poll): return at the
first poll whose count equals the target, else re-poll until the deadline. -/
def waitForElementCountGo (cnt : Nat → Nat) (count : Nat) :
    Nat → Nat → Option Nat
  | _, 0 => none
  | i, fuel + 1 =>
    if cnt i = count then some i
    else waitForElementCountGo cnt count (i + 1) fuel

/-- WaitHelpers.waitForElementCount (interval hardcoded to 200ms in the
source): poll until the observed count equals the target; on deadline
expiry, observe the count once more and throw an error reporting it. -/
def waitForElementCount (cnt : Nat → Nat) (count timeout : Nat) : CountOutcome :=
  match waitForElementCountGo cnt count 0 (numPolls timeout 200) with
  | some i => .successAt i
  | none => .timeoutErr count (cnt (numPolls timeout 200))

/-! ### Loop lemmas -/

theorem waitForElementCountGo_eq_some (cnt : Nat → Nat) (count : Nat) :
    ∀ fuel i i0, i ≤ i0 → i0 < i + fuel → cnt i0 = count →
      (∀ j, i ≤ j → j < i0 → cnt j ≠ count) →
      waitForElementCountGo cnt count i fuel = some i0 := by
  intro fuel
  induction fuel with
  | zero => intro i i0 h1 h2 _ _; omega
  | succ fuel ih =>
    intro i i0 h1 h2 h3 h4
    unfold waitForElementCountGo
    by_cases hc : cnt i = count
    · have hi : i0 = i := by
        by_contra hne
        exact h4 i le_rfl (lt_of_le_of_ne h1 (Ne.symm hne)) hc
      simp [hc, hi]
    · have hne : i0 ≠ i := fun h => hc (h ▸ h3)
      simp only [hc, if_false]
      exact ih (i + 1) i0 (by omega) (by omega) h3
        (fun j hj1 hj2 => h4 j (by omega) hj2)

theorem waitForElementCountGo_eq_none (cnt : Nat → Nat) (count : Nat) :
    ∀ fuel i, (∀ j, i ≤ j → j < i + fuel → cnt j ≠ count) →
      waitForElementCountGo cnt count i fuel = none := by
  intro fuel
  induction fuel with
  | zero => intro i _; rfl
  | succ fuel ih =>
    intro i h
    unfold waitForElementCountGo
    have hc : cnt i ≠ count := h i le_rfl (by omega)
    simp only [hc, if_false]
    exact ih (i + 1) (fun j hj1 hj2 => h j (by omega) (by omega))

/-! ### Theorems for claims C1 and C2 -/

/-- C1, counterexample: a single probe that throws at every iteration.
Under the claim, waitForAll and waitForAny would swallow the error and
poll until the deadline, ending in the timeout outcome; instead both
propagate the probe's error to the caller at the first iteration
(default timeout 10000 and interval 500, so 20 iterations were
available). -/
theorem waitForAll_swallow_cx :
    waitForAll [fun _ => (Except.error "probe failed" : Except String Bool)] 10000 500 =
      WaitOutcome.probeError "probe failed"
    ∧ waitForAny [fun _ => (Except.error "probe failed" : Except String Bool)] 10000 500 =
      WaitOutcome.probeError "probe failed"
    ∧ WaitOutcome.probeError "probe failed" ≠ (WaitOutcome.timeout : WaitOutcome String) := by
  refine ⟨rfl, rfl, by decide⟩

theorem waitForAllGo_probeError (E : Type) (conditions : List (Nat → Except E Bool)) :
    ∀ fuel i k e, k < fuel →
      promiseAll (conditions.map (fun c => c (i + k))) = .error e →
      (∀ j, j < k → ∃ results,
        promiseAll (conditions.map (fun c => c (i + j))) = .ok results ∧
        results.all (fun r => r == true) = false) →
      waitForAllGo conditions i fuel = .probeError e := by
  intro fuel
  induction fuel with
  | zero => intro i k e hk; omega
  | succ fuel ih =>
    intro i k e hk herr hbefore
    unfold waitForAllGo
    by_cases hk0 : k = 0
    · subst hk0
      rw [Nat.add_zero] at herr
      rw [herr]
    · obtain ⟨k1, rfl⟩ : ∃ k1, k = k1 + 1 := ⟨k - 1, by omega⟩
      obtain ⟨results, hres, hall⟩ := hbefore 0 (by omega)
      rw [Nat.add_zero] at hres
      rw [hres]
      simp only [hall, Bool.false_eq_true, if_false]
      apply ih (i + 1) k1 e (by omega)
      · rw [show i + 1 + k1 = i + (k1 + 1) by omega]
        exact herr
      · intro j hj
        obtain ⟨rs, h1, h2⟩ := hbefore (j + 1) (by omega)
        refine ⟨rs, ?_, h2⟩
        rw [show i + 1 + j = i + (j + 1) by omega]
        exact h1

theorem waitForAnyGo_probeError (E : Type) (conditions : List (Nat → Except E Bool)) :
    ∀ fuel i k e, k < fuel →
      promiseAll (conditions.map (fun c => c (i + k))) = .error e →
      (∀ j, j < k → ∃ results,
        promiseAll (conditions.map (fun c => c (i + j))) = .ok results ∧
        results.any (fun r => r == true) = false) →
      waitForAnyGo conditions i fuel = .probeError e := by
  intro fuel
  induction fuel with
  | zero => intro i k e hk; omega
  | succ fuel ih =>
    intro i k e hk herr hbefore
    unfold waitForAnyGo
    by_cases hk0 : k = 0
    · subst hk0
      rw [Nat.add_zero] at herr
      rw [herr]
    · obtain ⟨k1, rfl⟩ : ∃ k1, k = k1 + 1 := ⟨k - 1, by omega⟩
      obtain ⟨results, hres, hany⟩ := hbefore 0 (by omega)
      rw [Nat.add_zero] at hres
      rw [hres]
      simp only [hany, Bool.false_eq_true, if_false]
      apply ih (i + 1) k1 e (by omega)
      · rw [show i + 1 + k1 = i + (k1 + 1) by omega]
        exact herr
      · intro j hj
        obtain ⟨rs, h1, h2⟩ := hbefore (j + 1) (by omega)
        refine ⟨rs, ?_, h2⟩
        rw [show i + 1 + j = i + (j + 1) by omega]
        exact h1

/-- C1, amended: when a probe throws at any polling iteration k the loop
reaches (k is within the deadline's iteration budget, and each earlier
iteration resolved to a result list that left the aggregate condition
unsatisfied, so polling continued to k), waitForAll and waitForAny
propagate the probe's error to the caller instead of treating it as
not-yet-satisfied and polling on to the deadline. -/
theorem waitForAll_waitForAny_propagate (E : Type)
    (conditions : List (Nat → Except E Bool)) (timeout interval : Nat) (k : Nat) (e : E)
    (hk : k < numPolls timeout interval)
    (herr : promiseAll (conditions.map (fun c => c k)) = .error e) :
    ((∀ j, j < k → ∃ results,
        promiseAll (conditions.map (fun c => c j)) = .ok results ∧
        results.all (fun r => r == true) = false) →
      waitForAll conditions timeout interval = .probeError e)
    ∧ ((∀ j, j < k → ∃ results,
        promiseAll (conditions.map (fun c => c j)) = .ok results ∧
        results.any (fun r => r == true) = false) →
      waitForAny conditions timeout interval = .probeError e) := by
  constructor
  · intro hbefore
    exact waitForAllGo_probeError E conditions (numPolls timeout interval) 0 k e hk
      (by rw [Nat.zero_add]; exact herr)
      (fun j hj => by rw [Nat.zero_add]; exact hbefore j hj)
  · intro hbefore
    exact waitForAnyGo_probeError E conditions (numPolls timeout interval) 0 k e hk
      (by rw [Nat.zero_add]; exact herr)
      (fun j hj => by rw [Nat.zero_add]; exact hbefore j hj)

/-- Witness for the amended C1: a probe that returns false at polls 0 and
1 and throws at poll 2 (default timeout 10000 and interval 500, so 20
polls were available); both waits propagate the error thrown mid-run. -/
theorem waitForAll_waitForAny_propagate_witness :
    waitForAll
      [fun i => if i < 2 then (Except.ok false : Except String Bool)
                else Except.error "late boom"] 10000 500 =
      WaitOutcome.probeError "late boom"
    ∧ waitForAny
      [fun i => if i < 2 then (Except.ok false : Except String Bool)
                else Except.error "late boom"] 10000 500 =
      WaitOutcome.probeError "late boom" := by
  have h := waitForAll_waitForAny_propagate String
    [fun i => if i < 2 then (Except.ok false : Except String Bool)
              else Except.error "late boom"] 10000 500 2 "late boom"
    (by decide) (by decide)
  refine ⟨h.1 ?_, h.2 ?_⟩ <;> intro j hj <;>
    exact ⟨[false], by simp [promiseAll, hj], rfl⟩

/-- C2: waitForElementCount returns successfully at the first poll at
which the observed count equals the target; if no poll within the
timeout (ceil(timeout/200) polls) observes the target count, it throws a
timeout error reporting the count observed by the final observation made
after the loop. -/
theorem waitForElementCount_spec (cnt : Nat → Nat) (count timeout : Nat) :
    (∀ i0, i0 < numPolls timeout 200 → cnt i0 = count →
      (∀ j, j < i0 → cnt j ≠ count) →
      waitForElementCount cnt count timeout = .successAt i0)
    ∧ ((∀ i, i < numPolls timeout 200 → cnt i ≠ count) →
      waitForElementCount cnt count timeout =
        .timeoutErr count (cnt (numPolls timeout 200))) := by
  constructor
  · intro i0 h1 h2 h3
    unfold waitForElementCount
    rw [waitForElementCountGo_eq_some cnt count (numPolls timeout 200) 0 i0
      (Nat.zero_le _) (by omega) h2 (fun j _ hj => h3 j hj)]
  · intro h
    unfold waitForElementCount
    rw [waitForElementCountGo_eq_none cnt count (numPolls timeout 200) 0
      (fun j _ hj => h j (by omega))]

/-- Witness for C2: a trace whose count first equals 3 at poll 2 succeeds
at poll 2; a trace stuck at 7 times out reporting 7 (timeout 1000ms, so 5
polls). -/
theorem waitForElementCount_spec_witness :
    waitForElementCount (fun i => if i = 2 then 3 else 7) 3 1000 =
      CountOutcome.successAt 2
    ∧ waitForElementCount (fun _ => 7) 3 1000 = CountOutcome.timeoutErr 3 7 :=
  ⟨(waitForElementCount_spec (fun i => if i = 2 then 3 else 7) 3 1000).1 2
      (by decide) (by decide) (by decide),
   (waitForElementCount_spec (fun _ => 7) 3 1000).2 (fun i _ => by decide)⟩

/-! ### JS substring and parseInt primitives -/

/-- Does the haystack character list contain the needle as a contiguous
sublist (JS String.prototype.includes)? -/
def containsSub (needle : List Char) : List Char → Bool
  | [] => needle.isEmpty
  | c :: t => needle.isPrefixOf (c :: t) || containsSub needle t

/-- JS s.includes(sub). -/
def jsIncludes (s sub : String) : Bool :=
  containsSub sub.data s.data

/-- The numeric value of the longest leading ASCII-digit run, or none if
there is no leading digit. -/
def digitsVal (cs : List Char) : Option Nat :=
  let ds := cs.takeWhile isAsciiDigit
  if ds.isEmpty then none
  else some (ds.foldl (fun acc c => acc * 10 + (c.toNat - 48)) 0)

/-- JS parseInt(s, 10): skip leading whitespace, read an optional sign and
the longest run of decimal digits; NaN (the none branch) when no digit
follows. -/
def jsParseInt (s : String) : Option Int :=
  let cs := s.data.dropWhile jsWhitespace
  match cs with
  | '-' :: rest => (digitsVal rest).map (fun n => -(n : Int))
  | '+' :: rest => (digitsVal rest).map (fun n => (n : Int))
  | _ => (digitsVal cs).map (fun n => (n : Int))

/-! ### validateSecureUrl (src/utils/common-helpers.ts) -/

/-- Strip a case-insensitive http:// or https:// scheme from an already
lower-cased character list. -/
def afterScheme (cs : List Char) : Option (List Char) :=
  if "https://".data.isPrefixOf cs then some (cs.drop 8)
  else if "http://".data.isPrefixOf cs then some (cs.drop 7)
  else none

/-- The regex fragment (\/|$): the next character is a slash, or the
string ends here. -/
def slashOrEnd : List Char → Bool
  | [] => true
  | '/' :: _ => true
  | _ => false

/-- The regex fragment (:\d+)?(\/|$) after the loopback host: an optional
colon followed by at least one digit, then a slash or the end. -/
def portAndBoundary : List Char → Bool
  | ':' :: rest =>
    !(rest.takeWhile isAsciiDigit).isEmpty && slashOrEnd (rest.dropWhile isAsciiDigit)
  | cs => slashOrEnd cs

/-- The given loopback host literal, then an optional port, at the start
of the remainder of the URL. -/
def isLoopbackHostAt (host : List Char) (cs : List Char) : Bool :=
  host.isPrefixOf cs && portAndBoundary (cs.drop host.length)

/-- The three case-insensitive loopback regexes of validateSecureUrl:
^https?://H(:\d+)?(\/|$) for H in localhost, 127.0.0.1, ::1. -/
def isLoopbackUrl (url : String) : Bool :=
  match afterScheme (lowerData url) with
  | none => false
  | some rest =>
    isLoopbackHostAt "localhost".data rest ||
    isLoopbackHostAt "127.0.0.1".data rest ||
    isLoopbackHostAt "::1".data rest

/-- JS url.startsWith("https://"), case-sensitive as in the source. -/
def startsWithHttps (url : String) : Bool :=
  "https://".data.isPrefixOf url.data

/-- validateSecureUrl from src/utils/common-helpers.ts: an empty URL is
returned unvalidated; a non-loopback URL without the https:// prefix is a
thrown error when NODE_ENV is production and a logged warning otherwise;
every other URL is returned as-is.  The result pairs the returned URL
with whether a warning was logged. -/
def validateSecureUrl (production : Bool) (url : String) (key : Option String) :
    Except String (String × Bool) :=
  if url = "" then .ok (url, false)
  else if !isLoopbackUrl url && !startsWithHttps url then
    if production then
      .error (match key with
        | some k =>
          "Security violation: " ++ k ++ " must use HTTPS in production. Current value: " ++ url
        | none => "Security violation: URL must use HTTPS in production. URL: " ++ url)
    else .ok (url, true)
  else .ok (url, false)

/-! ### Environment configuration loader (src/config/env.config.ts) -/

/-- The process environment: a partial map from variable names to values. -/
abbrev EnvMap := String → Option String

/-- getEnv: the variable's value or the default, passed through
validateSecureUrl when the key name contains URL. -/
def getEnv (production : Bool) (env : EnvMap) (key defaultValue : String) :
    Except String (String × Bool) :=
  let value := (env key).getD defaultValue
  if jsIncludes key "URL" then validateSecureUrl production value (some key)
  else .ok (value, false)

/-- getEnumEnv: read via getEnv, then substitute the default with a logged
warning when the value is not in the allow-list. -/
def getEnumEnv (production : Bool) (env : EnvMap) (key defaultValue : String)
    (validValues : List String) : Except String (String × Bool) :=
  match getEnv production env key defaultValue with
  | .error e => .error e
  | .ok (value, warned) =>
    if validValues.contains value then .ok (value, warned)
    else .ok (defaultValue, true)

/-- getNumberEnvWithWarning: the default when the variable is unset, the
default with a logged warning when the value does not parse as an
integer, else the parsed value. -/
def getNumberEnvWithWarning (env : EnvMap) (key : String) (defaultValue : Int) :
    Int × Bool :=
  match env key with
  | none => (defaultValue, false)
  | some v =>
    match jsParseInt v with
    | none => (defaultValue, true)
    | some n => (n, false)

/-- Allow-list of LOG_LEVEL. -/
def logLevels : List String := ["DEBUG", "INFO", "WARN", "ERROR"]

/-- Allow-list of SCREENSHOT_MODE. -/
def screenshotModes : List String := ["off", "on", "only-on-failure"]

/-- Allow-list of VIDEO_MODE. -/
def videoModes : List String := ["off", "on", "on-first-retry", "retain-on-failure"]

/-- Allow-list of TRACE_MODE. -/
def traceModes : List String := ["off", "on", "on-first-retry"]

/-- The logLevel field of envConfig. -/
def loadLogLevel (production : Bool) (env : EnvMap) : Except String (String × Bool) :=
  getEnumEnv production env "LOG_LEVEL" "INFO" logLevels

/-- The screenshotMode field of envConfig. -/
def loadScreenshotMode (production : Bool) (env : EnvMap) : Except String (String × Bool) :=
  getEnumEnv production env "SCREENSHOT_MODE" "only-on-failure" screenshotModes

/-- The videoMode field of envConfig. -/
def loadVideoMode (production : Bool) (env : EnvMap) : Except String (String × Bool) :=
  getEnumEnv production env "VIDEO_MODE" "retain-on-failure" videoModes

/-- The traceMode field of envConfig. -/
def loadTraceMode (production : Bool) (env : EnvMap) : Except String (String × Bool) :=
  getEnumEnv production env "TRACE_MODE" "on-first-retry" traceModes

/-- What claim C6 requires of one choice setting: the loader never fails,
its result is always in the allow-list, and an out-of-list environment
value is replaced by the default with a logged warning. -/
def choiceFieldOk (production : Bool) (env : EnvMap) (key defaultValue : String)
    (validValues : List String) : Prop :=
  (getEnumEnv production env key defaultValue validValues).isOk = true
  ∧ (∀ r w, getEnumEnv production env key defaultValue validValues = .ok (r, w) →
      validValues.contains r = true)
  ∧ (∀ v, env key = some v → validValues.contains v = false →
      getEnumEnv production env key defaultValue validValues = .ok (defaultValue, true))

theorem getEnumEnv_no_url_eq (production : Bool) (env : EnvMap) (key defaultValue : String)
    (validValues : List String) (hkey : jsIncludes key "URL" = false) :
    getEnumEnv production env key defaultValue validValues =
      (if validValues.contains ((env key).getD defaultValue) = true
       then .ok ((env key).getD defaultValue, false)
       else .ok (defaultValue, true)) := by
  unfold getEnumEnv getEnv
  simp [hkey]

theorem choiceFieldOk_of (production : Bool) (env : EnvMap) (key defaultValue : String)
    (validValues : List String) (hkey : jsIncludes key "URL" = false)
    (hd : validValues.contains defaultValue = true) :
    choiceFieldOk production env key defaultValue validValues := by
  have heq := getEnumEnv_no_url_eq production env key defaultValue validValues hkey
  refine ⟨?_, ?_, ?_⟩
  · rw [heq]
    split <;> rfl
  · intro r w h
    rw [heq] at h
    split at h
    · cases h
      assumption
    · cases h
      exact hd
  · intro v hv hcon
    rw [heq, hv]
    rw [Option.getD_some, hcon]
    simp

/-! ### Theorems for claims C6 and C7 -/

/-- C6: for each of the four choice settings, an environment value outside
the allow-list is replaced by the documented default with a logged warning
(the loader never fails), so the loaded field is always a member of its
allow-list; and a numeric setting whose value fails to parse as an integer
falls back to its default with a logged warning. -/
theorem envConfig_choice_and_numeric_fallback (production : Bool) (env : EnvMap) :
    choiceFieldOk production env "LOG_LEVEL" "INFO" logLevels
    ∧ choiceFieldOk production env "SCREENSHOT_MODE" "only-on-failure" screenshotModes
    ∧ choiceFieldOk production env "VIDEO_MODE" "retain-on-failure" videoModes
    ∧ choiceFieldOk production env "TRACE_MODE" "on-first-retry" traceModes
    ∧ (∀ key v d, env key = some v → jsParseInt v = none →
        getNumberEnvWithWarning env key d = (d, true)) :=
  ⟨choiceFieldOk_of production env "LOG_LEVEL" "INFO" logLevels (by decide) (by decide),
   choiceFieldOk_of production env "SCREENSHOT_MODE" "only-on-failure" screenshotModes
     (by decide) (by decide),
   choiceFieldOk_of production env "VIDEO_MODE" "retain-on-failure" videoModes
     (by decide) (by decide),
   choiceFieldOk_of production env "TRACE_MODE" "on-first-retry" traceModes
     (by decide) (by decide),
   fun key v d hv hp => by unfold getNumberEnvWithWarning; rw [hv]; simp [hp]⟩

/-- A sample environment with an invalid log level and a non-numeric
timeout. -/
def envSample : EnvMap := fun k =>
  if k = "LOG_LEVEL" then some "VERBOSE"
  else if k = "TIMEOUT" then some "soon" else none

/-- Witness for C6: the invalid LOG_LEVEL value VERBOSE falls back to
INFO with a warning, and the non-numeric TIMEOUT value falls back to
30000 with a warning. -/
theorem envConfig_choice_and_numeric_fallback_witness :
    getEnumEnv false envSample "LOG_LEVEL" "INFO" logLevels = .ok ("INFO", true)
    ∧ getNumberEnvWithWarning envSample "TIMEOUT" 30000 = (30000, true) :=
  ⟨(envConfig_choice_and_numeric_fallback false envSample).1.2.2 "VERBOSE" rfl (by decide),
   (envConfig_choice_and_numeric_fallback false envSample).2.2.2.2 "TIMEOUT" "soon" 30000
     rfl (by decide)⟩

/-- C7, counterexample: the empty string is a value a URL setting can
take; it is neither an https:// URL nor a loopback URL, yet in production
mode validateSecureUrl accepts it unchanged instead of failing hard. -/
theorem validateSecureUrl_empty_cx :
    startsWithHttps "" = false ∧ isLoopbackUrl "" = false
    ∧ validateSecureUrl true "" none = .ok ("", false) := by
  decide

/-- C7, amended: for every non-empty URL value, a non-HTTPS (no https://
prefix) non-loopback URL is a thrown error in production mode and only a
logged warning otherwise, while HTTPS URLs and loopback URLs (localhost,
127.0.0.1, ::1) are accepted without a warning in every mode; the empty
string is returned unvalidated. -/
theorem validateSecureUrl_policy (production : Bool) (url : String) (key : Option String)
    (hne : url ≠ "") :
    (isLoopbackUrl url = false → startsWithHttps url = false →
      (production = true → ∃ msg, validateSecureUrl production url key = .error msg)
      ∧ (production = false → validateSecureUrl production url key = .ok (url, true)))
    ∧ (isLoopbackUrl url = true ∨ startsWithHttps url = true →
      validateSecureUrl production url key = .ok (url, false)) := by
  constructor
  · intro hlb hhttps
    constructor
    · intro hprod
      unfold validateSecureUrl
      simp [hne, hlb, hhttps, hprod]
    · intro hprod
      unfold validateSecureUrl
      simp [hne, hlb, hhttps, hprod]
  · intro h
    unfold validateSecureUrl
    rcases h with h | h <;> simp [hne, h]

/-- Witness for the amended C7: a plain http URL is rejected in production
and only warned about otherwise; loopback and https URLs pass untouched in
production. -/
theorem validateSecureUrl_policy_witness :
    (∃ msg, validateSecureUrl true "http://example.com" none = .error msg)
    ∧ validateSecureUrl false "http://example.com" none = .ok ("http://example.com", true)
    ∧ validateSecureUrl true "http://localhost:3000/app" none =
        .ok ("http://localhost:3000/app", false)
    ∧ validateSecureUrl true "https://www.saucedemo.com" none =
        .ok ("https://www.saucedemo.com", false) :=
  ⟨((validateSecureUrl_policy true "http://example.com" none (by decide)).1
      (by decide) (by decide)).1 rfl,
   ((validateSecureUrl_policy false "http://example.com" none (by decide)).1
      (by decide) (by decide)).2 rfl,
   (validateSecureUrl_policy true "http://localhost:3000/app" none (by decide)).2
      (Or.inl (by decide)),
   (validateSecureUrl_policy true "https://www.saucedemo.com" none (by decide)).2
      (Or.inr (by decide))⟩

/-! ### ProductsPage.getCartBadgeCount -/

/-- Modelled from the spec: pages/products.page.ts is absent from src/
(only its callers, the fixtures and a code-review document quoting two
variants of getCartBadgeCount are present).  Modelled from the spec
sentence "getCartBadgeCount() returns the integer parsed from the badge's
text, or 0 if the badge is absent", matching both quoted variants: the
badge state is its visibility together with its text content (which may
be null), and the result is parseInt(text ?? "0", 10) when the badge is
visible and 0 otherwise; a NaN parse is the none branch. -/
def getCartBadgeCount (badgeVisible : Bool) (badgeText : Option String) : Option Int :=
  if badgeVisible then jsParseInt (badgeText.getD "0")
  else some 0

/-- C8: when the badge is absent getCartBadgeCount returns 0 without
raising an error (the function is total), and when the badge is present it
returns the integer parsed from the badge's text (0 for a null text); in
particular a present badge reading 3 yields 3. -/
theorem getCartBadgeCount_spec :
    (∀ text, getCartBadgeCount false text = some 0)
    ∧ (∀ s, getCartBadgeCount true (some s) = jsParseInt s)
    ∧ getCartBadgeCount true none = some 0
    ∧ getCartBadgeCount true (some "3") = some 3 :=
  ⟨fun _ => rfl, fun _ => rfl, by decide, by decide⟩

end PlaywrightSpec
